import Mathlib

/-!
Shallow embedding of the frame lifecycle engine of `src/main.cpp` (a minimal
Vulkan 1.4 triangle application).  Pure selection logic is translated to Lean
functions; the stateful initialization (`initVulkan`) and the per frame loop
body (`draw`) are translated to explicit state passing functions that also
return the ordered list of externally visible effects (a trace), so that
ordering claims (for example which effect has occurred at the point of a
failure) can be stated and settled.  External driver answers (enumerated
devices, queue family capabilities, surface formats, present modes, surface
capabilities, success of each fallible host call) are gathered in a
`DriverConfig` record that plays the role of the Vulkan driver.
-/

/-- VkFormat values that the program distinguishes; every other format value is
collapsed into `otherFormat` with its numeric code. -/
inductive VkFormat
  | b8g8r8a8Unorm          -- VK_FORMAT_B8G8R8A8_UNORM
  | r8g8b8a8Unorm          -- VK_FORMAT_R8G8B8A8_UNORM
  | a8b8g8r8UnormPack32    -- VK_FORMAT_A8B8G8R8_UNORM_PACK32
  | otherFormat (code : Nat)
  deriving DecidableEq

/-- VkSurfaceFormatKHR: a pixel format together with a color space code. -/
structure VkSurfaceFormat where
  format : VkFormat
  colorSpace : Nat
  deriving DecidableEq

/-- VkPresentModeKHR values the program can meet. -/
inductive PresentMode
  | immediate
  | mailbox       -- VK_PRESENT_MODE_MAILBOX_KHR
  | fifo          -- VK_PRESENT_MODE_FIFO_KHR
  | fifoRelaxed
  | otherMode (code : Nat)
  deriving DecidableEq

/-- VkPhysicalDeviceType, as far as the selection loop looks at it. -/
inductive DeviceType
  | discreteGPU   -- VK_PHYSICAL_DEVICE_TYPE_DISCRETE_GPU
  | integratedGPU
  | cpu
  | virtualGPU
  | otherType
  deriving DecidableEq

/-- One queue family: the two queue flag bits the program tests
(VK_QUEUE_GRAPHICS_BIT, VK_QUEUE_COMPUTE_BIT) together with the per family
answer of vkGetPhysicalDeviceSurfaceSupportKHR for the created surface. -/
structure QueueFamily where
  graphics : Bool
  compute : Bool
  present : Bool
  deriving DecidableEq

/-- The fields of VkSurfaceCapabilitiesKHR that `initVulkan` reads.  A current
extent width of 4294967295 (uint32_t(-1)) is the follow-the-window sentinel. -/
structure SurfaceCaps where
  minImageCount : Nat
  maxImageCount : Nat
  currentExtentW : Nat
  currentExtentH : Nat
  deriving DecidableEq

/-- One physical device as reported by the driver for the created surface. -/
structure PhysDevice where
  deviceType : DeviceType
  queueFamilies : List QueueFamily
  surfaceFormats : List VkSurfaceFormat
  surfaceCaps : SurfaceCaps
  presentModes : List PresentMode
  deriving DecidableEq

/-- The external world of `initVulkan`: the enumerated devices plus a success
flag for every fallible host call wrapped in VK_CHECK, and the window size.
`deliveredImageCount` is the answer of vkGetSwapchainImagesKHR as a function of
the image count requested in VkSwapchainCreateInfoKHR.  `syncOk` covers the
three creation loops for fences, per frame semaphores and per image semaphores
(source lines 551 to 585). -/
structure DriverConfig where
  instanceOk : Bool
  surfaceOk : Bool
  devices : List PhysDevice
  deviceOk : Bool
  allocatorOk : Bool
  swapchainOk : Bool
  deliveredImageCount : Nat → Nat
  imageViewsOk : Bool
  syncOk : Bool
  poolOk : Bool
  cmdBufOk : Bool
  windowW : Nat
  windowH : Nat

/-- State of one VkFence as the model tracks it: `signaled` after creation with
VK_FENCE_CREATE_SIGNALED_BIT or after device completion, `unsignaled` right
after vkResetFences, `pending` once a submission names it as its completion
fence (the device will signal it at some later, unspecified time). -/
inductive FenceState
  | signaled
  | unsignaled
  | pending
  deriving DecidableEq

/-- Failure outcomes of `initVulkan`.  `runtimeError` carries the exact message
of the RT_THROW / VK_CHECK site; `badOptionalAccess` models the
std::bad_optional_access raised by std::optional::value() on an empty optional;
`undefinedBehavior` marks an execution with no defined C++ meaning, such as
dereferencing the end iterator returned by std::find_if. -/
inductive InitErr
  | runtimeError (msg : String)
  | badOptionalAccess (site : String)
  | undefinedBehavior (site : String)
  deriving DecidableEq

/-- Externally visible effects of `initVulkan`, in program order. -/
inductive InitEvent
  | instanceCreated
  | surfaceCreated
  | deviceCreated            -- vkCreateDevice returned VK_SUCCESS
  | allocatorCreated
  | swapchainCreated (requestedImages : Nat)
  | imageViewsCreated
  | syncObjectsCreated
  | commandPoolCreated
  | commandBuffersAllocated
  deriving DecidableEq

/-- SwapChain::MAX_SWAPCHAIN_FRAMES. -/
def maxSwapchainFrames : Nat := 2

/-- The state `initVulkan` leaves behind on success, restricted to what later
code observes.  GPU handles are modelled as numeric ids; swap chain images and
image views get ids 0, 1, ... in creation order. -/
structure VkState where
  graphicsQueueIdx : Nat
  presentQueueIdx : Nat
  computeQueueIdx : Nat
  colorFormat : VkFormat
  colorSpace : Nat
  extentW : Nat
  extentH : Nat
  presentMode : PresentMode
  requestedImageCount : Nat
  images : List Nat
  imageViews : List Nat
  waitFences : List FenceState
  presentSemaphores : List Nat
  renderCompleteSemaphores : List Nat
  currentFrame : Nat
  deriving DecidableEq

/-- Physical device selection (source lines 261 to 269): the first enumerated
device whose type is VK_PHYSICAL_DEVICE_TYPE_DISCRETE_GPU. -/
def pickDiscreteDevice (devs : List PhysDevice) : Option PhysDevice :=
  devs.find? fun d => d.deviceType == DeviceType.discreteGPU

/-- Queue family resolution loop (source lines 285 to 310).  Walks the family
list with index `i`, overwrites the graphics / compute / present records with
the current index whenever the corresponding capability is reported, and
breaks out early as soon as both the present and the graphics record hold a
value.  Returns (graphics, compute, present). -/
def resolveQueues : List QueueFamily → Nat → Option Nat → Option Nat → Option Nat →
    Option Nat × Option Nat × Option Nat
  | [], _, g, c, p => (g, c, p)
  | qf :: rest, i, g, c, p =>
    let g1 := if qf.graphics then some i else g
    let c1 := if qf.compute then some i else c
    let p1 := if qf.present then some i else p
    if p1.isSome && g1.isSome then (g1, c1, p1)
    else resolveQueues rest (i + 1) g1 c1 p1

/-- The ordered preference list of source line 397. -/
def preferredFormats : List VkFormat :=
  [VkFormat.b8g8r8a8Unorm, VkFormat.r8g8b8a8Unorm, VkFormat.a8b8g8r8UnormPack32]

/-- The selection loop of source lines 404 to 410: the first reported surface
format whose format member is contained in `preferredFormats`. -/
def findPreferredFormat : List VkSurfaceFormat → Option VkSurfaceFormat
  | [] => none
  | f :: rest =>
    if preferredFormats.contains f.format then some f else findPreferredFormat rest

/-- Surface format selection (source lines 395 to 410): default to the first
reported format, overwritten by the first reported format that matches the
preference list.  Returns none only on an empty list, which `initVulkan` has
already excluded at this point. -/
def selectSurfaceFormat (fmts : List VkSurfaceFormat) : Option VkSurfaceFormat :=
  match fmts with
  | [] => none
  | f0 :: _ => some ((findPreferredFormat fmts).getD f0)

/-- Present mode selection (source lines 444 to 449):
std::find_if for VK_PRESENT_MODE_MAILBOX_KHR.  A `none` result corresponds to
the end iterator, which the source dereferences unconditionally. -/
def selectPresentMode (modes : List PresentMode) : Option PresentMode :=
  modes.find? fun m => m == PresentMode.mailbox

/-- Extent derivation (source lines 423 to 430): on the uint32_t(-1) sentinel
use the window size, otherwise adopt the surface current extent (which the
source also writes back into the window record). -/
def chooseExtent (caps : SurfaceCaps) (winW winH : Nat) : Nat × Nat :=
  if caps.currentExtentW = 4294967295 then (winW, winH)
  else (caps.currentExtentW, caps.currentExtentH)

/-- Swap chain image count request (source lines 451 to 455):
min count plus one, clamped down to the max count when the max is nonzero. -/
def numberSwapchainImages (minC maxC : Nat) : Nat :=
  let n := minC + 1
  if 0 < maxC ∧ maxC < n then maxC else n

/-- The image count formula as the specification words it: the larger of
min_count + 1 and min_count, clamped down to max_count when max_count > 0.
Kept separate from `numberSwapchainImages` so that the two can be compared. -/
def specImageCountFormula (minC maxC : Nat) : Nat :=
  if 0 < maxC then min (max (minC + 1) minC) maxC else max (minC + 1) minC

/-- The body of `initVulkan` (source lines 212 to 612) as a function from the
driver configuration to the effect trace plus either an error or the resulting
state.  Logging loops (device name printing) have no modelled effect;
transform and composite alpha selection (lines 457 to 480) only feed fields of
the swapchain create info that no later code observes and are omitted. -/
def initVulkan (cfg : DriverConfig) : List InitEvent × Except InitErr VkState :=
  match cfg.instanceOk with
  | false => ([], .error (.runtimeError "Failed to create instance"))
  | true =>
  match cfg.surfaceOk with
  | false => ([.instanceCreated], .error (.runtimeError "Failed to create Surface"))
  | true =>
  match cfg.devices with
  | [] =>
    ([.instanceCreated, .surfaceCreated],
     .error (.runtimeError "Failed to find Vulkan supported GPU"))
  | _ :: _ =>
  match pickDiscreteDevice cfg.devices with
  | none =>
    ([.instanceCreated, .surfaceCreated],
     .error (.runtimeError "Failed to select Vulkan supported GPU"))
  | some dev =>
  match resolveQueues dev.queueFamilies 0 none none none with
  | (some gidx, cq, some pidx) =>
    (match cfg.deviceOk with
     | false =>
       ([.instanceCreated, .surfaceCreated],
        .error (.runtimeError "Failed to create logical device"))
     | true =>
     match cfg.allocatorOk with
     | false =>
       ([.instanceCreated, .surfaceCreated, .deviceCreated],
        .error (.runtimeError "Failed to create VMA allocator"))
     | true =>
     match cq with
     | none =>
       -- source line 378: computeQueue.idx.value() on an unresolved optional
       ([.instanceCreated, .surfaceCreated, .deviceCreated, .allocatorCreated],
        .error (.badOptionalAccess "computeQueue idx value"))
     | some cidx =>
     match dev.surfaceFormats with
     | [] =>
       ([.instanceCreated, .surfaceCreated, .deviceCreated, .allocatorCreated],
        .error (.runtimeError "Not found ANY surface color format!!!!"))
     | f0 :: frest =>
     match dev.presentModes with
     | [] =>
       ([.instanceCreated, .surfaceCreated, .deviceCreated, .allocatorCreated],
        .error (.runtimeError "Not found ANY present mode"))
     | pm0 :: pmrest =>
     match selectPresentMode (pm0 :: pmrest) with
     | none =>
       -- std::find_if returned presentModes.end() and line 446 dereferences it
       ([.instanceCreated, .surfaceCreated, .deviceCreated, .allocatorCreated],
        .error (.undefinedBehavior "deref of end iterator in present mode selection"))
     | some pmode =>
     match cfg.swapchainOk with
     | false =>
       ([.instanceCreated, .surfaceCreated, .deviceCreated, .allocatorCreated],
        .error (.runtimeError "Failed to create swapchain"))
     | true =>
     let selectedFormat := (findPreferredFormat (f0 :: frest)).getD f0
     let ext := chooseExtent dev.surfaceCaps cfg.windowW cfg.windowH
     let reqImages :=
       numberSwapchainImages dev.surfaceCaps.minImageCount dev.surfaceCaps.maxImageCount
     let nImages := cfg.deliveredImageCount reqImages
     match cfg.imageViewsOk with
     | false =>
       ([.instanceCreated, .surfaceCreated, .deviceCreated, .allocatorCreated,
         .swapchainCreated reqImages],
        .error (.runtimeError "Failed to create image view - swapchain"))
     | true =>
     match cfg.syncOk with
     | false =>
       ([.instanceCreated, .surfaceCreated, .deviceCreated, .allocatorCreated,
         .swapchainCreated reqImages, .imageViewsCreated],
        .error (.runtimeError "Failed to create wait fence"))
     | true =>
     match cfg.poolOk with
     | false =>
       ([.instanceCreated, .surfaceCreated, .deviceCreated, .allocatorCreated,
         .swapchainCreated reqImages, .imageViewsCreated, .syncObjectsCreated],
        .error (.runtimeError "Failed to create command pool"))
     | true =>
     match cfg.cmdBufOk with
     | false =>
       ([.instanceCreated, .surfaceCreated, .deviceCreated, .allocatorCreated,
         .swapchainCreated reqImages, .imageViewsCreated, .syncObjectsCreated,
         .commandPoolCreated],
        .error (.runtimeError "Failed to allocate command buffers"))
     | true =>
     ([.instanceCreated, .surfaceCreated, .deviceCreated, .allocatorCreated,
       .swapchainCreated reqImages, .imageViewsCreated, .syncObjectsCreated,
       .commandPoolCreated, .commandBuffersAllocated],
      .ok { graphicsQueueIdx := gidx
            presentQueueIdx := pidx
            computeQueueIdx := cidx
            colorFormat := selectedFormat.format
            colorSpace := selectedFormat.colorSpace
            extentW := ext.1
            extentH := ext.2
            presentMode := pmode
            requestedImageCount := reqImages
            images := List.range nImages
            imageViews := List.range nImages
            -- fences carry VK_FENCE_CREATE_SIGNALED_BIT (lines 551 to 562)
            waitFences := List.replicate maxSwapchainFrames FenceState.signaled
            presentSemaphores := List.range maxSwapchainFrames
            renderCompleteSemaphores := List.range nImages
            currentFrame := 0 }))
  | (_, _, _) =>
    -- source lines 313 to 317: graphics / present idx value() in the set initializer
    ([.instanceCreated, .surfaceCreated],
     .error (.badOptionalAccess "graphicsQueue or presentQueue idx value"))

/-- Pipeline stages named in the recorded barriers and in the submit wait. -/
inductive PipelineStage
  | colorAttachmentOutput   -- VK_PIPELINE_STAGE_COLOR_ATTACHMENT_OUTPUT_BIT
  | noneStage               -- VK_PIPELINE_STAGE_2_NONE
  deriving DecidableEq

/-- Access masks named in the recorded barriers. -/
inductive AccessMask
  | noAccess                -- 0u
  | colorAttachmentWrite    -- VK_ACCESS_COLOR_ATTACHMENT_WRITE_BIT
  deriving DecidableEq

/-- Image layouts named in the recorded barriers and attachments. -/
inductive ImageLayout
  | undefinedLayout         -- VK_IMAGE_LAYOUT_UNDEFINED
  | attachmentOptimal       -- VK_IMAGE_LAYOUT_ATTACHMENT_OPTIMAL
  | colorAttachmentOptimal  -- VK_IMAGE_LAYOUT_COLOR_ATTACHMENT_OPTIMAL
  | presentSrc              -- VK_IMAGE_LAYOUT_PRESENT_SRC_KHR
  deriving DecidableEq

/-- Commands recorded into the per frame command buffer during `draw`.  The
bind and indexed draw constructors exist for the scene recording path
(`renderScene`), whose body the source currently keeps commented out. -/
inductive Cmd
  | pipelineBarrier (srcStage dstStage : PipelineStage)
      (srcAccess dstAccess : AccessMask)
      (oldLayout newLayout : ImageLayout) (image : Nat)
  | beginRendering (imageView : Nat) (attachmentLayout : ImageLayout)
      (clearOnLoad storeOnEnd : Bool) (w h : Nat)
  | setViewport (w h : Nat)
  | setScissor (w h : Nat)
  | endRendering
  | bindPipeline
  | bindVertexBuffer
  | bindIndexBuffer
  | drawIndexed (indexCount instanceCount firstIndex vertexOffset firstInstance : Nat)
  deriving DecidableEq

/-- True exactly on image layout transitions (vkCmdPipelineBarrier with an
image memory barrier). -/
def isLayoutTransition : Cmd → Bool
  | .pipelineBarrier _ _ _ _ _ _ _ => true
  | _ => false

/-- True exactly on scene draw work: pipeline and geometry binds and the
indexed draw itself. -/
def isDrawCmd : Cmd → Bool
  | .bindPipeline => true
  | .bindVertexBuffer => true
  | .bindIndexBuffer => true
  | .drawIndexed _ _ _ _ _ => true
  | _ => false

/-- `renderScene` (source lines 818 to 835): its whole body is commented out,
so it records no commands. -/
def renderScene : List Cmd := []

/-- Command buffer content recorded for one frame (source lines 863 to 940):
barrier UNDEFINED to ATTACHMENT_OPTIMAL, begin dynamic rendering with clear on
load and store on end over the full extent, dynamic viewport and scissor, the
scene (`renderScene`), end rendering, barrier ATTACHMENT_OPTIMAL to
PRESENT_SRC. -/
def recordCommands (image imageView w h : Nat) : List Cmd :=
  [Cmd.pipelineBarrier .colorAttachmentOutput .colorAttachmentOutput
     .noAccess .colorAttachmentWrite .undefinedLayout .attachmentOptimal image,
   Cmd.beginRendering imageView .colorAttachmentOptimal true true w h,
   Cmd.setViewport w h,
   Cmd.setScissor w h]
  ++ renderScene
  ++ [Cmd.endRendering,
      Cmd.pipelineBarrier .colorAttachmentOutput .noneStage
        .colorAttachmentWrite .noAccess .attachmentOptimal .presentSrc image]

/-- Externally visible steps of one `draw` iteration, in program order.
Semaphores and fences are identified by their numeric id or slot.  `waitFence`
also records the fence state observed when the wait begins; a wait on a
`signaled` fence returns immediately.  `record` folds the reset, begin, record
and end of the slot command buffer into one step carrying the commands. -/
inductive DrawEvent
  | waitFence (slot : Nat) (observed : FenceState)
  | resetFence (slot : Nat)
  | acquireImage (signalSemaphore : Nat) (imageIdx : Nat)
  | record (slot : Nat) (cmds : List Cmd)
  | submit (waitSemaphore : Nat) (waitStage : PipelineStage)
      (signalSemaphore : Nat) (signalFenceSlot : Nat)
  | present (waitSemaphore : Nat) (imageIdx : Nat)
  deriving DecidableEq

/-- The body of `draw` (source lines 837 to 970) with the acquired image index
supplied by the driver.  Waits on the slot fence, resets it, acquires an image
signaling the slot acquire semaphore (the source calls the array
presentSemaphores), records the command buffer, submits waiting on that
semaphore at the color attachment output stage and signaling the per image
render complete semaphore plus the slot fence, presents waiting on the per
image semaphore, and advances currentFrame modulo MAX_SWAPCHAIN_FRAMES.  The
slot fence ends `pending`: reset to unsignaled, then handed to the submission
for the device to signal later. -/
def draw (s : VkState) (imageIdx : Nat) : VkState × List DrawEvent :=
  let f := s.currentFrame
  let observed := s.waitFences.getD f FenceState.signaled
  let acquireSem := s.presentSemaphores.getD f 0
  let renderSem := s.renderCompleteSemaphores.getD imageIdx 0
  let cmds := recordCommands (s.images.getD imageIdx 0) (s.imageViews.getD imageIdx 0)
      s.extentW s.extentH
  ({ s with
      currentFrame := (f + 1) % maxSwapchainFrames,
      waitFences := s.waitFences.set f FenceState.pending },
   [DrawEvent.waitFence f observed,
    DrawEvent.resetFence f,
    DrawEvent.acquireImage acquireSem imageIdx,
    DrawEvent.record f cmds,
    DrawEvent.submit acquireSem PipelineStage.colorAttachmentOutput renderSem f,
    DrawEvent.present renderSem imageIdx])

/-- The frame loop (source lines 972 to 978) after n iterations, with the
acquired image index of iteration k given by `pick k`. -/
def runFrames (s0 : VkState) (pick : Nat → Nat) : Nat → VkState
  | 0 => s0
  | n + 1 => (draw (runFrames s0 pick n) (pick n)).1

/-- The fence state observed by the wait that opens iteration n of the frame
loop. -/
def fenceObservedAt (s0 : VkState) (pick : Nat → Nat) (n : Nat) : FenceState :=
  let s := runFrames s0 pick n
  s.waitFences.getD s.currentFrame FenceState.signaled

/-- Byte addressed memory, as seen through the persistent mapping of the
geometry buffer.  Byte values are naturals below 256. -/
abbrev Mem := Nat → Nat

/-- memcpy(dst, src, src.length) on the mapped memory. -/
def memcpy (m : Mem) (dst : Nat) (src : List Nat) : Mem :=
  fun a => if dst ≤ a ∧ a < dst + src.length then src.getD (a - dst) 0 else m a

/-- Reading n bytes starting at byte offset off through the same mapping. -/
def readBytes (m : Mem) (off n : Nat) : List Nat :=
  (List.range n).map fun i => m (off + i)

/-- sizeof(Vertex): two glm vec3 members, six 4 byte floats. -/
def sizeofVertex : Nat := 24

/-- vbuffSize at source line 629: sizeof(Vertex) times the three vertices. -/
def vbuffSize : Nat := sizeofVertex * 3

/-- ibuffSize at source line 630: sizeof(uint32_t) times the three indices. -/
def ibuffSize : Nat := 4 * 3

/-- The two memcpy calls of `initResouces` (source lines 636 to 640): the
vertex bytes at offset 0, the index bytes at the immediately following offset
vb.length. -/
def initResoucesWrite (m : Mem) (vb ib : List Nat) : Mem :=
  memcpy (memcpy m 0 vb) vb.length ib

/-- A driver whose one discrete device answers every query benignly: one all
capable queue family, one preferred surface format, mailbox available,
min 2 / max 3 images, fixed current extent. -/
def goodDevice : PhysDevice :=
  { deviceType := .discreteGPU
    queueFamilies := [{ graphics := true, compute := true, present := true }]
    surfaceFormats := [{ format := .b8g8r8a8Unorm, colorSpace := 0 }]
    surfaceCaps := { minImageCount := 2, maxImageCount := 3,
                     currentExtentW := 800, currentExtentH := 600 }
    presentModes := [.mailbox, .fifo] }

/-- A configuration around one device in which every host call succeeds and
the driver delivers one more swap chain image than requested. -/
def mkConfig (d : PhysDevice) : DriverConfig :=
  { instanceOk := true
    surfaceOk := true
    devices := [d]
    deviceOk := true
    allocatorOk := true
    swapchainOk := true
    deliveredImageCount := fun n => n + 1
    imageViewsOk := true
    syncOk := true
    poolOk := true
    cmdBufOk := true
    windowW := 1920
    windowH := 1080 }

/-- The benign configuration. -/
def goodConfig : DriverConfig := mkConfig goodDevice

/-- The state `initVulkan` computes under `goodConfig`: requested image count
2 + 1 = 3 within the max of 3, four delivered images, two signaled fences, two
acquire semaphores, four render complete semaphores. -/
def goodState : VkState :=
  { graphicsQueueIdx := 0
    presentQueueIdx := 0
    computeQueueIdx := 0
    colorFormat := .b8g8r8a8Unorm
    colorSpace := 0
    extentW := 800
    extentH := 600
    presentMode := .mailbox
    requestedImageCount := 3
    images := [0, 1, 2, 3]
    imageViews := [0, 1, 2, 3]
    waitFences := [FenceState.signaled, FenceState.signaled]
    presentSemaphores := [0, 1]
    renderCompleteSemaphores := [0, 1, 2, 3]
    currentFrame := 0 }

/-- The effect trace `initVulkan` emits under `goodConfig`. -/
def goodTrace : List InitEvent :=
  [.instanceCreated, .surfaceCreated, .deviceCreated, .allocatorCreated,
   .swapchainCreated 3, .imageViewsCreated, .syncObjectsCreated,
   .commandPoolCreated, .commandBuffersAllocated]

/-- Like `goodDevice` but the surface reports zero formats. -/
def noFormatDevice : PhysDevice :=
  { goodDevice with surfaceFormats := [] }

/-- Configuration in which the surface reports zero formats. -/
def noFormatConfig : DriverConfig := mkConfig noFormatDevice

/-- Like `goodDevice` but the surface reports only FIFO, no mailbox. -/
def noMailboxDevice : PhysDevice :=
  { goodDevice with presentModes := [.fifo] }

/-- Configuration of the section 8 end to end scenario: present modes [FIFO]
and no mailbox. -/
def noMailboxConfig : DriverConfig := mkConfig noMailboxDevice

/-- Like `goodDevice` but queue family 0 supports graphics and present only,
while the compute capability sits in family 1, past the early loop break. -/
def splitQueueDevice : PhysDevice :=
  { goodDevice with
      queueFamilies := [{ graphics := true, compute := false, present := true },
                        { graphics := false, compute := true, present := false }] }

/-- Configuration whose device keeps compute in a family the resolution loop
never reaches. -/
def splitQueueConfig : DriverConfig := mkConfig splitQueueDevice

/-! Helper lemmas shared by the claim theorems. -/

/-- The format selection loop is List.find? over the reported formats with the
preference membership test. -/
theorem findPreferredFormat_eq_find? (l : List VkSurfaceFormat) :
    findPreferredFormat l = l.find? fun f => preferredFormats.contains f.format := by
  induction l with
  | nil => rfl
  | cons f rest ih =>
    simp only [findPreferredFormat, ih]
    split
    next h =>
      rw [@List.find?_cons_of_pos _ (fun f => preferredFormats.contains f.format) f rest h]
    next h =>
      rw [@List.find?_cons_of_neg _ (fun f => preferredFormats.contains f.format) f rest h]

/-- Pointwise content of the mapped buffer after the two memcpy calls of
initResouces: vertex byte i at address i, index byte j at address
vb.length + j, everything else untouched. -/
theorem initResoucesWrite_value (m : Mem) (vb ib : List Nat) (a : Nat) :
    initResoucesWrite m vb ib a =
      if a < vb.length then vb.getD a 0
      else if a < vb.length + ib.length then ib.getD (a - vb.length) 0
      else m a := by
  simp only [initResoucesWrite, memcpy]
  split_ifs <;> first | rfl | omega

/-- Reading a range splits at any interior point. -/
theorem readBytes_append (m : Mem) (off n k : Nat) :
    readBytes m off (n + k) = readBytes m off n ++ readBytes m (off + n) k := by
  simp only [readBytes, List.range_add, List.map_append, List.map_map]
  congr 1
  apply List.map_congr_left
  intro i _
  simp only [Function.comp_apply]
  congr 1
  omega

/-- Claim C4: every `draw` iteration with frame slot f performs exactly the
sequence wait on fence f, reset fence f, acquire an image signaling the slot
acquire semaphore, record command buffer f, submit waiting on that semaphore
at the color attachment output stage and signaling the per image render
complete semaphore and fence f, present waiting on the per image semaphore,
and then advances currentFrame to (f + 1) mod MAX_SWAPCHAIN_FRAMES, which
keeps currentFrame below MAX_SWAPCHAIN_FRAMES. -/
theorem c4_draw_sequence (s : VkState) (img : Nat) :
    (draw s img).2 =
      [DrawEvent.waitFence s.currentFrame
         (s.waitFences.getD s.currentFrame FenceState.signaled),
       DrawEvent.resetFence s.currentFrame,
       DrawEvent.acquireImage (s.presentSemaphores.getD s.currentFrame 0) img,
       DrawEvent.record s.currentFrame
         (recordCommands (s.images.getD img 0) (s.imageViews.getD img 0)
           s.extentW s.extentH),
       DrawEvent.submit (s.presentSemaphores.getD s.currentFrame 0)
         PipelineStage.colorAttachmentOutput
         (s.renderCompleteSemaphores.getD img 0) s.currentFrame,
       DrawEvent.present (s.renderCompleteSemaphores.getD img 0) img] ∧
    (draw s img).1.currentFrame = (s.currentFrame + 1) % maxSwapchainFrames ∧
    (draw s img).1.currentFrame < maxSwapchainFrames := by
  refine ⟨rfl, rfl, ?_⟩
  show (s.currentFrame + 1) % maxSwapchainFrames < maxSwapchainFrames
  exact Nat.mod_lt _ (by decide)

/-- Claim C5: one frame recording contains exactly two layout transitions, in
order UNDEFINED to ATTACHMENT_OPTIMAL (source access none, destination access
color attachment write) and then ATTACHMENT_OPTIMAL to PRESENT_SRC (source
access color attachment write, destination access none); the begin and end of
the rendering scope sit strictly between the two transitions, and every draw
command sits strictly inside that scope. -/
theorem c5_recorded_transitions (image imageView w h : Nat) :
    (recordCommands image imageView w h).filter isLayoutTransition =
      [Cmd.pipelineBarrier .colorAttachmentOutput .colorAttachmentOutput
         .noAccess .colorAttachmentWrite .undefinedLayout .attachmentOptimal image,
       Cmd.pipelineBarrier .colorAttachmentOutput .noneStage
         .colorAttachmentWrite .noAccess .attachmentOptimal .presentSrc image] ∧
    ∃ i j k l : Nat, i < j ∧ j < k ∧ k < l ∧
      (recordCommands image imageView w h)[i]? =
        some (Cmd.pipelineBarrier .colorAttachmentOutput .colorAttachmentOutput
          .noAccess .colorAttachmentWrite .undefinedLayout .attachmentOptimal image) ∧
      (recordCommands image imageView w h)[j]? =
        some (Cmd.beginRendering imageView .colorAttachmentOptimal true true w h) ∧
      (recordCommands image imageView w h)[k]? = some Cmd.endRendering ∧
      (recordCommands image imageView w h)[l]? =
        some (Cmd.pipelineBarrier .colorAttachmentOutput .noneStage
          .colorAttachmentWrite .noAccess .attachmentOptimal .presentSrc image) ∧
      (∀ m c, (recordCommands image imageView w h)[m]? = some c →
        isLayoutTransition c = true → m = i ∨ m = l) ∧
      (∀ m c, (recordCommands image imageView w h)[m]? = some c →
        isDrawCmd c = true → j < m ∧ m < k) := by
  refine ⟨rfl, 0, 1, 4, 5, by omega, by omega, by omega, rfl, rfl, rfl, rfl, ?_, ?_⟩
  · intro m c hm ht
    have hm6 : m < 6 := by
      by_contra hge
      rw [List.getElem?_eq_none (by simp [recordCommands, renderScene]; omega)] at hm
      exact Option.noConfusion hm
    interval_cases m <;>
      simp only [recordCommands, renderScene, List.nil_append, List.append_nil,
        List.cons_append, List.getElem?_cons_zero, List.getElem?_cons_succ,
        Option.some.injEq] at hm <;>
      cases hm <;>
      first
        | exact Or.inl rfl
        | exact Or.inr rfl
        | exact Bool.noConfusion ht
  · intro m c hm ht
    have hm6 : m < 6 := by
      by_contra hge
      rw [List.getElem?_eq_none (by simp [recordCommands, renderScene]; omega)] at hm
      exact Option.noConfusion hm
    interval_cases m <;>
      simp only [recordCommands, renderScene, List.nil_append, List.append_nil,
        List.cons_append, List.getElem?_cons_zero, List.getElem?_cons_succ,
        Option.some.injEq] at hm <;>
      cases hm <;>
      exact Bool.noConfusion ht

/-- Claim C7: the requested swap chain image count is min_count + 1 clamped
down to max_count when max_count is positive, which equals the specification
formula, and for a capability set the driver can report (max_count zero or at
least min_count) the count lies between min_count and max_count when max_count
is positive and is at least min_count otherwise. -/
theorem c7_image_count (minC maxC : Nat) (hcap : 0 < maxC → minC ≤ maxC) :
    numberSwapchainImages minC maxC = specImageCountFormula minC maxC ∧
    (0 < maxC → minC ≤ numberSwapchainImages minC maxC ∧
      numberSwapchainImages minC maxC ≤ maxC) ∧
    (maxC = 0 → minC ≤ numberSwapchainImages minC maxC) := by
  rcases Nat.eq_zero_or_pos maxC with h0 | hpos
  · subst h0
    simp only [numberSwapchainImages, specImageCountFormula]
    refine ⟨?_, ?_, ?_⟩ <;> split_ifs <;> omega
  · have hle := hcap hpos
    simp only [numberSwapchainImages, specImageCountFormula]
    refine ⟨?_, ?_, ?_⟩ <;> split_ifs <;> omega

/-- Witness for C7 at min_count 2, max_count 3. -/
theorem c7_image_count_witness :
    (0 < 3 → 2 ≤ 3) ∧
    (numberSwapchainImages 2 3 = specImageCountFormula 2 3 ∧
      (0 < 3 → 2 ≤ numberSwapchainImages 2 3 ∧ numberSwapchainImages 2 3 ≤ 3) ∧
      (3 = 0 → 2 ≤ numberSwapchainImages 2 3)) :=
  ⟨by omega, c7_image_count 2 3 (by omega)⟩

/-- Claim C8: on a non empty reported format list the selection never fails
and returns the first reported format that matches the preference list, or the
first reported format when none matches (List.find? is the first match, and
getD supplies the head as fallback). -/
theorem c8_format_selection (fmts : List VkSurfaceFormat) (h : fmts ≠ []) :
    selectSurfaceFormat fmts =
      some ((fmts.find? fun f => preferredFormats.contains f.format).getD
        (fmts.head h)) := by
  match fmts, h with
  | f0 :: rest, _ =>
    simp [selectSurfaceFormat, findPreferredFormat_eq_find?]

/-- Witness for C8: two reported formats, only the second preferred; the
selection picks it. -/
theorem c8_format_selection_witness :
    ([⟨VkFormat.otherFormat 5, 0⟩, ⟨VkFormat.r8g8b8a8Unorm, 7⟩] :
        List VkSurfaceFormat) ≠ [] ∧
    selectSurfaceFormat [⟨VkFormat.otherFormat 5, 0⟩, ⟨VkFormat.r8g8b8a8Unorm, 7⟩] =
      some ((([⟨VkFormat.otherFormat 5, 0⟩, ⟨VkFormat.r8g8b8a8Unorm, 7⟩] :
          List VkSurfaceFormat).find?
            fun f => preferredFormats.contains f.format).getD
        (([⟨VkFormat.otherFormat 5, 0⟩, ⟨VkFormat.r8g8b8a8Unorm, 7⟩] :
          List VkSurfaceFormat).head (by decide))) :=
  ⟨by decide, c8_format_selection _ (by decide)⟩

/-- Claim C9: after the two contiguous memcpy calls, reading back through the
same mapping yields the vertex bytes at offset 0, the index bytes at exactly
offset vb.length, and the concatenation of the two source arrays over the full
size. -/
theorem c9_buffer_roundtrip (m : Mem) (vb ib : List Nat) :
    readBytes (initResoucesWrite m vb ib) 0 vb.length = vb ∧
    readBytes (initResoucesWrite m vb ib) vb.length ib.length = ib ∧
    readBytes (initResoucesWrite m vb ib) 0 (vb.length + ib.length) = vb ++ ib := by
  have h1 : readBytes (initResoucesWrite m vb ib) 0 vb.length = vb := by
    apply List.ext_getElem (by simp [readBytes])
    intro i h1 h2
    simp only [readBytes, List.getElem_map, List.getElem_range, Nat.zero_add]
    rw [initResoucesWrite_value, if_pos h2]
    exact List.getD_eq_getElem vb 0 h2
  have h2 : readBytes (initResoucesWrite m vb ib) vb.length ib.length = ib := by
    apply List.ext_getElem (by simp [readBytes])
    intro i hi1 hi2
    simp only [readBytes, List.getElem_map, List.getElem_range]
    rw [initResoucesWrite_value, if_neg (by omega), if_pos (by omega)]
    have : vb.length + i - vb.length = i := by omega
    rw [this]
    exact List.getD_eq_getElem ib 0 hi2
  refine ⟨h1, h2, ?_⟩
  rw [readBytes_append, Nat.zero_add, h1, h2]

/-- Inversion of a successful `initVulkan` run: the fields of the resulting
state that the frame loop claims depend on.  The fences come out of creation
signaled, currentFrame starts at 0, there are MAX_SWAPCHAIN_FRAMES acquire
semaphores and one render complete semaphore and one image view per delivered
swap chain image. -/
theorem initVulkan_ok_inv (cfg : DriverConfig) (tr : List InitEvent) (s : VkState)
    (h : initVulkan cfg = (tr, .ok s)) :
    s.currentFrame = 0 ∧
    s.waitFences = List.replicate maxSwapchainFrames FenceState.signaled ∧
    s.presentSemaphores.length = maxSwapchainFrames ∧
    s.renderCompleteSemaphores.length = s.images.length ∧
    s.imageViews.length = s.images.length := by
  revert h
  unfold initVulkan
  repeat' split
  all_goals intro h
  all_goals simp only [Prod.mk.injEq] at h
  all_goals obtain ⟨h1, h2⟩ := h
  all_goals (cases h2 <;> exact ⟨rfl, rfl, by simp, by simp, by simp⟩)

/-- Claim C6: every successful initialization produces exactly
MAX_SWAPCHAIN_FRAMES fences, MAX_SWAPCHAIN_FRAMES acquire semaphores and one
render complete semaphore per swap chain image, and these sizes persist
through every number of frame loop iterations. -/
theorem c6_sync_object_sizes (cfg : DriverConfig) (tr : List InitEvent)
    (s : VkState) (h : initVulkan cfg = (tr, .ok s)) (pick : Nat → Nat) (n : Nat) :
    (runFrames s pick n).waitFences.length = maxSwapchainFrames ∧
    (runFrames s pick n).presentSemaphores.length = maxSwapchainFrames ∧
    (runFrames s pick n).renderCompleteSemaphores.length =
      (runFrames s pick n).images.length := by
  obtain ⟨-, hf, hp, hr, -⟩ := initVulkan_ok_inv cfg tr s h
  have hf0 : s.waitFences.length = maxSwapchainFrames := by simp [hf]
  induction n with
  | zero => exact ⟨hf0, hp, hr⟩
  | succ n ih =>
    obtain ⟨ih1, ih2, ih3⟩ := ih
    refine ⟨?_, ?_, ?_⟩ <;> simp [runFrames, draw, ih1, ih2, ih3]

/-- Witness for C6: the benign configuration, three loop iterations. -/
theorem c6_sync_object_sizes_witness :
    (initVulkan goodConfig = (goodTrace, .ok goodState)) ∧
    ((runFrames goodState (fun _ => 0) 3).waitFences.length = maxSwapchainFrames ∧
     (runFrames goodState (fun _ => 0) 3).presentSemaphores.length = maxSwapchainFrames ∧
     (runFrames goodState (fun _ => 0) 3).renderCompleteSemaphores.length =
       (runFrames goodState (fun _ => 0) 3).images.length) :=
  ⟨rfl, c6_sync_object_sizes goodConfig goodTrace goodState rfl (fun _ => 0) 3⟩

/-- Claim C10: fences are created signaled, so the wait that opens each of the
first MAX_SWAPCHAIN_FRAMES frame loop iterations observes a signaled fence and
returns immediately, whatever image indices acquisition returns. -/
theorem c10_first_waits_signaled (cfg : DriverConfig) (tr : List InitEvent)
    (s : VkState) (pick : Nat → Nat) (h : initVulkan cfg = (tr, .ok s)) :
    s.waitFences = List.replicate maxSwapchainFrames FenceState.signaled ∧
    fenceObservedAt s pick 0 = FenceState.signaled ∧
    fenceObservedAt s pick 1 = FenceState.signaled := by
  obtain ⟨hc, hf, -, -, -⟩ := initVulkan_ok_inv cfg tr s h
  refine ⟨hf, ?_, ?_⟩
  · simp [fenceObservedAt, runFrames, hc, hf, maxSwapchainFrames]
  · simp [fenceObservedAt, runFrames, draw, hc, hf, maxSwapchainFrames]

/-- Witness for C10: the benign configuration. -/
theorem c10_first_waits_signaled_witness :
    (initVulkan goodConfig = (goodTrace, .ok goodState)) ∧
    (goodState.waitFences = List.replicate maxSwapchainFrames FenceState.signaled ∧
     fenceObservedAt goodState (fun _ => 0) 0 = FenceState.signaled ∧
     fenceObservedAt goodState (fun _ => 0) 1 = FenceState.signaled) :=
  ⟨rfl, c10_first_waits_signaled goodConfig goodTrace goodState (fun _ => 0) rfl⟩

/-- Claim C1 as stated is false on the code: under a driver whose discrete
device reports zero surface formats, initialization does fail with the no
surface format error, but the logical device creation effect has already
occurred at that point (vkCreateDevice runs at source line 365, the format
count check only at line 387). -/
theorem c1_counterexample :
    (initVulkan noFormatConfig).2 =
      .error (.runtimeError "Not found ANY surface color format!!!!") ∧
    InitEvent.deviceCreated ∈ (initVulkan noFormatConfig).1 :=
  ⟨rfl, by decide⟩

/-- Claim C1 amended: whenever the run reaches the surface format query with
zero reported formats (instance, surface, device selection, queue resolution,
device and allocator creation all succeeded), initialization fails with the
NoSurfaceFormat error, but only after the logical device has been created:
the deviceCreated effect is in the trace at the point of failure. -/
theorem c1_fails_after_device_creation (cfg : DriverConfig) (dev : PhysDevice)
    (gi ci pi : Nat)
    (h1 : cfg.instanceOk = true) (h2 : cfg.surfaceOk = true)
    (h3 : pickDiscreteDevice cfg.devices = some dev)
    (h4 : resolveQueues dev.queueFamilies 0 none none none = (some gi, some ci, some pi))
    (h5 : cfg.deviceOk = true) (h6 : cfg.allocatorOk = true)
    (h7 : dev.surfaceFormats = []) :
    initVulkan cfg =
      ([.instanceCreated, .surfaceCreated, .deviceCreated, .allocatorCreated],
       .error (.runtimeError "Not found ANY surface color format!!!!")) ∧
    InitEvent.deviceCreated ∈ (initVulkan cfg).1 := by
  rcases hcase : cfg.devices with _ | ⟨d0, ds⟩
  · rw [hcase] at h3
    exact absurd h3 (by simp [pickDiscreteDevice])
  · rw [hcase] at h3
    have hmain : initVulkan cfg =
        ([.instanceCreated, .surfaceCreated, .deviceCreated, .allocatorCreated],
         .error (.runtimeError "Not found ANY surface color format!!!!")) := by
      simp only [initVulkan, h1, h2, hcase, h3, h4, h5, h6, h7]
    exact ⟨hmain, by rw [hmain]; decide⟩

/-- Witness for the amended C1 at the concrete zero format configuration. -/
theorem c1_fails_after_device_creation_witness :
    (noFormatConfig.instanceOk = true ∧ noFormatConfig.surfaceOk = true ∧
     pickDiscreteDevice noFormatConfig.devices = some noFormatDevice ∧
     resolveQueues noFormatDevice.queueFamilies 0 none none none =
       (some 0, some 0, some 0) ∧
     noFormatConfig.deviceOk = true ∧ noFormatConfig.allocatorOk = true ∧
     noFormatDevice.surfaceFormats = []) ∧
    (initVulkan noFormatConfig =
      ([.instanceCreated, .surfaceCreated, .deviceCreated, .allocatorCreated],
       .error (.runtimeError "Not found ANY surface color format!!!!")) ∧
     InitEvent.deviceCreated ∈ (initVulkan noFormatConfig).1) :=
  ⟨⟨rfl, rfl, by decide, by decide, rfl, rfl, rfl⟩,
   c1_fails_after_device_creation noFormatConfig noFormatDevice 0 0 0
     rfl rfl (by decide) (by decide) rfl rfl rfl⟩

/-- Claim C2, evaluated at the section 8 scenario: when mailbox is reported it
is selected, but when the reported list is [FIFO] the std::find_if returns the
end iterator and the code dereferences it, so the run ends in undefined
behavior instead of a FIFO fallback or a named error. -/
theorem c2_no_mailbox_undefined_behavior :
    selectPresentMode [PresentMode.mailbox, PresentMode.fifo] =
      some PresentMode.mailbox ∧
    selectPresentMode [PresentMode.fifo] = none ∧
    noMailboxDevice.presentModes = [PresentMode.fifo] ∧
    (initVulkan noMailboxConfig).2 =
      .error (.undefinedBehavior "deref of end iterator in present mode selection") :=
  ⟨rfl, rfl, rfl, rfl⟩

/-- Claim C3, evaluated at a device whose family 0 is graphics plus present
and whose family 1 alone is compute capable: the resolution loop breaks at
family 0 and leaves the compute record unassigned although the family list
contains a compute capable family, and initialization then dies at the
unchecked optional access for the compute queue index (source line 378), not
with a graphics or present capability failure. -/
theorem c3_compute_family_skipped :
    (splitQueueDevice.queueFamilies.any fun qf => qf.graphics) = true ∧
    (splitQueueDevice.queueFamilies.any fun qf => qf.compute) = true ∧
    (splitQueueDevice.queueFamilies.any fun qf => qf.present) = true ∧
    resolveQueues splitQueueDevice.queueFamilies 0 none none none =
      (some 0, none, some 0) ∧
    (initVulkan splitQueueConfig).2 =
      .error (.badOptionalAccess "computeQueue idx value") ∧
    InitEvent.deviceCreated ∈ (initVulkan splitQueueConfig).1 :=
  ⟨rfl, rfl, rfl, rfl, rfl, by decide⟩
